import Mathlib

/-
  Shallow embedding of the FutureForms.Client jsondb slice:
  the AnySQL class (src/jsondb/AnySQL.ts) and the Insert class.
  Requests are modelled as JSON trees; the asynchronous round trip
  through Session.invoke is modelled by passing the backend response
  explicitly to each operation, which returns the updated instance
  state together with the operation's return value.
-/

namespace FF

/-- JSON values, as built by the request serialisation and decoded from responses. -/
inductive Json where
  | null : Json
  | bool : Bool → Json
  | num : Int → Json
  | str : String → Json
  | arr : List Json → Json
  | obj : List (String × Json) → Json

/-- Field lookup on a JSON object (first binding wins, as in a JS object). -/
def Json.getField : Json → String → Option Json
  | Json.obj fs, k => (fs.find? (fun p => p.1 = k)).map (fun p => p.2)
  | _, _ => none

/-- Field lookup lifted to Option, for chaining. -/
def jget (j : Option Json) (k : String) : Option Json :=
  match j with
  | some v => Json.getField v k
  | none => none

/-- Follow a path of object keys from a JSON value. -/
def jpath (j : Json) (ks : List String) : Option Json :=
  ks.foldl (fun acc k => jget acc k) (some j)

/-- The Session collaborator: only its sessionID is read by this slice. -/
structure Session where
  sessionID : String

/-- A name/value bind pair (filters/Filters.ts NameValuePair). -/
structure NameValuePair where
  name : String
  value : Json

/-- Serialisation of a bind pair into the request. -/
def NameValuePair.toJson (p : NameValuePair) : Json :=
  Json.obj [("name", Json.str p.name), ("value", p.value)]

/-- The fields contributed by `if (this.bindvalues$) request.X.bindvalues = ...`:
an empty list when the bind values are null, a single binding otherwise. -/
def bindJson : Option (List NameValuePair) → List (String × Json)
  | none => []
  | some bs => [("bindvalues", Json.arr (bs.map NameValuePair.toJson))]

/-- The fields contributed by `if (this.savepoint$ != null) ... savepoint = ...`. -/
def savepointJson : Option Bool → List (String × Json)
  | none => []
  | some b => [("savepoint", Json.bool b)]

/-- Column metadata (Table.ts ColumnDefinition): name, declared type,
native SQL type, precision. -/
structure ColumnDefinition where
  name : String
  type : String
  sqltype : String
  precision : Nat

/-- A column descriptor as it appears in a select response. -/
structure ColDesc where
  name : String
  type : String
  sqltype : String
  precision : Nat

/-- A backend response: success flag, optional message, affected row count,
column descriptors, row data, pagination flag. -/
structure Response where
  success : Bool
  message : Option String
  affected : Nat
  columns : List ColDesc
  rows : List (List Json)
  more : Bool

/-- The data object handed to the Cursor constructor: pagination flag,
rows, and the list of column names. -/
structure CursorData where
  more : Bool
  rows : List (List Json)
  columns : List String

/-- The Cursor as constructed by this slice: the session, the map from
lower-cased column name to its definition (a JS Map, modelled as an
insertion-ordered association list), and the data object. -/
structure Cursor where
  session : Session
  coldefs : List (String × ColumnDefinition)
  data : CursorData

/-- JS String.prototype.toLowerCase, modelled as lower-casing each
character of the string. -/
def jsToLower (s : String) : String :=
  String.mk (s.data.map Char.toLower)

/-- JS Map.set: replace the value of an existing key in place, else append. -/
def mapSet (m : List (String × ColumnDefinition)) (k : String)
    (v : ColumnDefinition) : List (String × ColumnDefinition) :=
  if m.any (fun p => p.1 = k) then
    m.map (fun p => if p.1 = k then (k, v) else p)
  else
    m ++ [(k, v)]

/-- The localized error messages thrown by the AnySQL constructor
(Messages.get with the message code and the class name). -/
inductive JsErr where
  | SOURCE_IS_NULL : String → JsErr
  | SESSION_IS_NULL : String → JsErr

/-- The instance state of AnySQL: error message, affected count, success
flag, source SQL, session, savepoint flag and bind values. -/
structure AnySQL where
  errm : Option String
  affected : Nat
  success : Bool
  source : String
  session : Session
  savepoint : Option Bool
  bindvalues : Option (List NameValuePair)

/-- The constructor argument `bindvalues?:NameValuePair|NameValuePair[]`. -/
inductive BindArg where
  | one : NameValuePair → BindArg
  | many : List NameValuePair → BindArg

/-- The AnySQL constructor: stores the fields, wraps a single bind pair in
an array, then throws SOURCE_IS_NULL when the source is falsy (null,
absent or the empty string) and SESSION_IS_NULL when the session is
null or absent. No session invoke happens here. -/
def AnySQL.construct (session : Option Session) (source : Option String)
    (bindvalues : Option BindArg) : Except JsErr AnySQL :=
  let binds : Option (List NameValuePair) :=
    match bindvalues with
    | none => none
    | some (BindArg.one p) => some [p]
    | some (BindArg.many ps) => some ps
  if source = none ∨ source = some "" then
    Except.error (JsErr.SOURCE_IS_NULL "AnySQL")
  else
    match session with
    | none => Except.error (JsErr.SESSION_IS_NULL "AnySQL")
    | some s =>
      Except.ok { errm := none, affected := 0, success := true,
                  source := source.getD "", session := s,
                  savepoint := none, bindvalues := binds }

/-- failed(): whether an error has occured. -/
def AnySQL.failed (a : AnySQL) : Bool :=
  !a.success

/-- getErrorMessage(): the error message from the backend. -/
def AnySQL.getErrorMessage (a : AnySQL) : Option String :=
  a.errm

/-- useSavePoint(flag). -/
def AnySQL.useSavePoint (a : AnySQL) (flag : Bool) : AnySQL :=
  { a with savepoint := some flag }

/-- The request built by AnySQL.execute(). -/
def AnySQL.executeRequest (a : AnySQL) : Json :=
  Json.obj [("Sql", Json.obj (
    [("invoke", Json.str "execute"),
     ("source", Json.str a.source),
     ("session", Json.str a.session.sessionID)]
    ++ bindJson a.bindvalues
    ++ savepointJson a.savepoint))]

/-- AnySQL.execute() response handling: copy message and success, return
the success flag. The affected count is not touched. -/
def AnySQL.execute (a : AnySQL) (r : Response) : AnySQL × Bool :=
  let a1 := { a with errm := r.message, success := r.success }
  (a1, a1.success)

/-- The request built by AnySQL.insert(). -/
def AnySQL.insertRequest (a : AnySQL) : Json :=
  Json.obj [("Sql", Json.obj (
    [("invoke", Json.str "insert"),
     ("source", Json.str a.source),
     ("session", Json.str a.session.sessionID)]
    ++ bindJson a.bindvalues
    ++ savepointJson a.savepoint))]

/-- AnySQL.insert() response handling: copy message and success; copy the
affected count only when the response is successful. -/
def AnySQL.insert (a : AnySQL) (r : Response) : AnySQL × Bool :=
  let a1 := { a with errm := r.message, success := r.success }
  let a2 := if a1.success then { a1 with affected := r.affected } else a1
  (a2, a2.success)

/-- The request built by AnySQL.update(). -/
def AnySQL.updateRequest (a : AnySQL) : Json :=
  Json.obj [("Sql", Json.obj (
    [("invoke", Json.str "update"),
     ("source", Json.str a.source),
     ("session", Json.str a.session.sessionID)]
    ++ bindJson a.bindvalues
    ++ savepointJson a.savepoint))]

/-- AnySQL.update() response handling, same shape as insert(). -/
def AnySQL.update (a : AnySQL) (r : Response) : AnySQL × Bool :=
  let a1 := { a with errm := r.message, success := r.success }
  let a2 := if a1.success then { a1 with affected := r.affected } else a1
  (a2, a2.success)

/-- The request built by AnySQL.delete(). -/
def AnySQL.deleteRequest (a : AnySQL) : Json :=
  Json.obj [("Sql", Json.obj (
    [("invoke", Json.str "delete"),
     ("source", Json.str a.source),
     ("session", Json.str a.session.sessionID)]
    ++ bindJson a.bindvalues
    ++ savepointJson a.savepoint))]

/-- AnySQL.delete() response handling, same shape as insert(). -/
def AnySQL.delete (a : AnySQL) (r : Response) : AnySQL × Bool :=
  let a1 := { a with errm := r.message, success := r.success }
  let a2 := if a1.success then { a1 with affected := r.affected } else a1
  (a2, a2.success)

/-- The request built by AnySQL.select(close?, arrayfetch?): defaults
close to false and the page size to 1, and adds cursor=false inside
the select() sub-object when close is requested. -/
def AnySQL.selectRequest (a : AnySQL) (close : Option Bool)
    (arrayfetch : Option Nat) : Json :=
  let cl := close.getD false
  let af := arrayfetch.getD 1
  Json.obj [("Sql", Json.obj (
    [("invoke", Json.str "select"),
     ("source", Json.str a.source),
     ("session", Json.str a.session.sessionID),
     ("select()", Json.obj (
        [("page-size", Json.num (af : Int))]
        ++ (if cl then [("cursor", Json.bool false)] else [])))]
    ++ bindJson a.bindvalues
    ++ savepointJson a.savepoint))]

/-- AnySQL.select() response handling: copy message and success; on
success convert each column descriptor into a ColumnDefinition, record
the names in order, key the map by the lower-cased name, and return a
Cursor over the response with its columns replaced by the name list;
on failure return null. -/
def AnySQL.select (a : AnySQL) (r : Response) : AnySQL × Option Cursor :=
  let a1 := { a with errm := r.message, success := r.success }
  if r.success then
    let acc := r.columns.foldl
      (fun (acc : List String × List (String × ColumnDefinition)) coldef =>
        let column : ColumnDefinition :=
          { name := coldef.name, type := coldef.type,
            sqltype := coldef.sqltype, precision := coldef.precision }
        (acc.1 ++ [column.name], mapSet acc.2 (jsToLower column.name) column))
      ([], [])
    (a1, some { session := a1.session, coldefs := acc.2,
                data := { more := r.more, rows := r.rows, columns := acc.1 } })
  else
    (a1, none)

/-- The Table collaborator as seen by Insert: its source name, its
session, its bind values, and the column definitions it serves through
getColumnDefinitions() (populated by describe(), which performs no
observable change modelled here). -/
structure Table where
  source : String
  session : Session
  bindvalues : Option (List NameValuePair)
  coldefs : List (String × ColumnDefinition)

/-- A record to be inserted: parallel lists of column names and values. -/
structure Record where
  columns : List String
  values : List Json

/-- The instance state of Insert: error message, success flag, affected
count, returned-values cursor, the table and its source/session, the
savepoint flag and the requested returning columns. -/
structure Insert where
  errm : Option String
  success : Bool
  affected : Nat
  cursor : Option Cursor
  table : Table
  source : String
  session : Session
  savepoint : Option Bool
  returning : Option (List String)

/-- The Insert constructor: takes the source and session from the table. -/
def Insert.make (table : Table) : Insert :=
  { errm := none, success := true, affected := 0, cursor := none,
    table := table, source := table.source, session := table.session,
    savepoint := none, returning := none }

/-- The argument `columns:string|string[]` of setReturnColumns. -/
inductive StrArg where
  | one : String → StrArg
  | many : List String → StrArg

/-- setReturnColumns(columns): wraps a single column in an array. -/
def Insert.setReturnColumns (ins : Insert) (columns : StrArg) : Insert :=
  match columns with
  | StrArg.one s => { ins with returning := some [s] }
  | StrArg.many ss => { ins with returning := some ss }

/-- Insert.useSavePoint(flag). -/
def Insert.useSavePoint (ins : Insert) (flag : Bool) : Insert :=
  { ins with savepoint := some flag }

/-- getReturnValues(): the values returned by the operation. -/
def Insert.getReturnValues (ins : Insert) : Option Cursor :=
  ins.cursor

/-- affected(): the number of rows affected. -/
def Insert.affectedCount (ins : Insert) : Nat :=
  ins.affected

/-- Insert failed(). -/
def Insert.failed (ins : Insert) : Bool :=
  !ins.success

/-- Insert getErrorMessage(). -/
def Insert.getErrorMessage (ins : Insert) : Option String :=
  ins.errm

/-- The request built by Insert.execute(record): a "Table" envelope with
invoke/source/session, the empty "insert()" sub-object created in the
literal, then bind values added on the envelope, and savepoint, the
column/value pairs of the record (indices 0 .. columns.length - 1,
an out-of-range value index reading as undefined, modelled null) and
the returning columns added inside "insert()". -/
def Insert.executeRequest (ins : Insert) (record : Record) : Json :=
  let insertFields : List (String × Json) :=
    savepointJson ins.savepoint
    ++ [("values", Json.arr ((List.range record.columns.length).map (fun i =>
         Json.obj [("column", Json.str (record.columns.getD i "")),
                   ("value", record.values.getD i Json.null)])))]
    ++ (match ins.returning with
        | none => []
        | some ret => [("returning", Json.arr (ret.map Json.str))])
  Json.obj [("Table", Json.obj (
    [("invoke", Json.str "insert"),
     ("source", Json.str ins.source),
     ("session", Json.str ins.session.sessionID),
     ("insert()", Json.obj insertFields)]
    ++ bindJson ins.table.bindvalues))]

/-- Insert.execute(record) state transition: reset the affected count to 0
and the cursor to null, await describe(), issue the request, copy message
and success, copy the affected count on success, and on success with
returning columns requested wrap the response rows in a Cursor built from
the table's column definitions and a data object carrying the returning
columns; return the success flag. -/
def Insert.execute (ins : Insert) (record : Record) (r : Response) :
    Insert × Bool :=
  let i0 := { ins with affected := 0, cursor := (none : Option Cursor) }
  let i1 := { i0 with errm := r.message, success := r.success }
  let i2 := if i1.success then { i1 with affected := r.affected } else i1
  let i3 :=
    match i2.returning with
    | some ret =>
      if i2.success then
        let curs : CursorData := { more := false, rows := r.rows, columns := ret }
        { i2 with cursor := some ({ session := i2.session,
                                    coldefs := i2.table.coldefs,
                                    data := curs } : Cursor) }
      else i2
    | none => i2
  (i3, i3.success)

/-
  Theorems for the claims.
-/

/-- Claim C1 counterexample: AnySQL.execute does not copy the response's
affected count into the affected-row state: with a successful response
reporting 5 affected rows, affected() still returns 0 afterwards. -/
theorem C1_counterexample :
    (AnySQL.execute
      { errm := none, affected := 0, success := true,
        source := "update emp set sal = 0", session := { sessionID := "s1" },
        savepoint := none, bindvalues := none }
      { success := true, message := none, affected := 5,
        columns := [], rows := [], more := false }).1.affected = 0 ∧
    (5 : Nat) ≠ 0 := by
  exact ⟨rfl, by decide⟩

/-- Claim C1 (amended): after awaiting the session's invoke, each of the
four mutating operations copies the response's message into the
error-message state and its success flag into the success state;
insert, update and delete copy the affected count only when the response
is successful (leaving it unchanged otherwise), and execute never
touches the affected count. -/
theorem C1_amended (a : AnySQL) (r : Response) :
    ((AnySQL.execute a r).1.errm = r.message ∧
     (AnySQL.execute a r).1.success = r.success ∧
     (AnySQL.execute a r).1.affected = a.affected) ∧
    ((AnySQL.insert a r).1.errm = r.message ∧
     (AnySQL.insert a r).1.success = r.success ∧
     (AnySQL.insert a r).1.affected =
       (if r.success then r.affected else a.affected)) ∧
    ((AnySQL.update a r).1.errm = r.message ∧
     (AnySQL.update a r).1.success = r.success ∧
     (AnySQL.update a r).1.affected =
       (if r.success then r.affected else a.affected)) ∧
    ((AnySQL.delete a r).1.errm = r.message ∧
     (AnySQL.delete a r).1.success = r.success ∧
     (AnySQL.delete a r).1.affected =
       (if r.success then r.affected else a.affected)) := by
  cases hr : r.success <;>
    simp [AnySQL.execute, AnySQL.insert, AnySQL.update, AnySQL.delete, hr]

/-- Claim C2 counterexample: a failed second AnySQL.insert call does not
overwrite the affected count left by a successful first call: after a
first call reporting 5 affected rows and a second, failing call
reporting 0, the stale value 5 survives. -/
theorem C2_counterexample :
    (AnySQL.insert
      (AnySQL.insert
        { errm := none, affected := 0, success := true,
          source := "insert into emp values (1)",
          session := { sessionID := "s1" },
          savepoint := none, bindvalues := none }
        { success := true, message := none, affected := 5,
          columns := [], rows := [], more := false }).1
      { success := false, message := some "dup key", affected := 0,
        columns := [], rows := [], more := false }).1.affected = 5 ∧
    (0 : Nat) ≠ 5 := by
  exact ⟨rfl, by decide⟩

/-- Claim C2 (amended): a second call always overwrites the success and
error-message state; Insert.execute also resets the affected count to 0
and the cursor to null before the request, so after any Insert.execute
call the affected count is the response's count on success and 0
otherwise, and the cursor is rebuilt from the response alone; but the
AnySQL mutating operations overwrite the affected count only when the
second call succeeds, so a stale affected value survives a failed
AnySQL call. -/
theorem C2_amended (a : AnySQL) (ins : Insert) (rec : Record) (r : Response) :
    ((AnySQL.execute a r).1.errm = r.message ∧
     (AnySQL.execute a r).1.success = r.success) ∧
    ((AnySQL.insert a r).1.errm = r.message ∧
     (AnySQL.insert a r).1.success = r.success ∧
     (AnySQL.insert a r).1.affected =
       (if r.success then r.affected else a.affected)) ∧
    ((AnySQL.update a r).1.affected =
       (if r.success then r.affected else a.affected)) ∧
    ((AnySQL.delete a r).1.affected =
       (if r.success then r.affected else a.affected)) ∧
    ((Insert.execute ins rec r).1.errm = r.message ∧
     (Insert.execute ins rec r).1.success = r.success ∧
     (Insert.execute ins rec r).1.affected =
       (if r.success then r.affected else 0) ∧
     (Insert.execute ins rec r).1.cursor =
       (if r.success then
          ins.returning.map (fun ret =>
            { session := ins.session, coldefs := ins.table.coldefs,
              data := { more := false, rows := r.rows, columns := ret } })
        else none)) := by
  cases hr : r.success <;> cases hret : ins.returning <;>
    simp [AnySQL.execute, AnySQL.insert, AnySQL.update, AnySQL.delete,
          Insert.execute, hr, hret]

/-- Claim C3 counterexample: in the request built by Insert.execute with
the savepoint flag set, the savepoint field is absent from the "Table"
envelope object and sits inside the operation-specific "insert()"
sub-object instead. -/
theorem C3_counterexample :
    (jpath (Insert.executeRequest
      { errm := none, success := true, affected := 0, cursor := none,
        table := { source := "emp", session := { sessionID := "s1" },
                   bindvalues := none, coldefs := [] },
        source := "emp", session := { sessionID := "s1" },
        savepoint := some true, returning := none }
      { columns := ["id"], values := [Json.num 1] })
      ["Table", "savepoint"] = none) ∧
    (jpath (Insert.executeRequest
      { errm := none, success := true, affected := 0, cursor := none,
        table := { source := "emp", session := { sessionID := "s1" },
                   bindvalues := none, coldefs := [] },
        source := "emp", session := { sessionID := "s1" },
        savepoint := some true, returning := none }
      { columns := ["id"], values := [Json.num 1] })
      ["Table", "insert()", "savepoint"] = some (Json.bool true)) := by
  exact ⟨rfl, rfl⟩

/-- Claim C3 (amended): when the savepoint flag is set, every AnySQL
request (execute/insert/update/delete/select) carries it as a boolean
field of the "Sql" envelope object, but the request built by
Insert.execute carries it inside the "insert()" sub-object and not on
the "Table" envelope. -/
theorem C3_amended (a : AnySQL) (ins : Insert) (rec : Record) (b : Bool)
    (c : Option Bool) (af : Option Nat)
    (h1 : a.savepoint = some b) (h2 : ins.savepoint = some b) :
    jpath (AnySQL.executeRequest a) ["Sql", "savepoint"]
      = some (Json.bool b) ∧
    jpath (AnySQL.insertRequest a) ["Sql", "savepoint"]
      = some (Json.bool b) ∧
    jpath (AnySQL.updateRequest a) ["Sql", "savepoint"]
      = some (Json.bool b) ∧
    jpath (AnySQL.deleteRequest a) ["Sql", "savepoint"]
      = some (Json.bool b) ∧
    jpath (AnySQL.selectRequest a c af) ["Sql", "savepoint"]
      = some (Json.bool b) ∧
    jpath (Insert.executeRequest ins rec) ["Table", "savepoint"] = none ∧
    jpath (Insert.executeRequest ins rec) ["Table", "insert()", "savepoint"]
      = some (Json.bool b) := by
  cases hb : a.bindvalues <;> cases htb : ins.table.bindvalues <;>
    cases hret : ins.returning <;>
    simp [jpath, jget, Json.getField, AnySQL.executeRequest,
          AnySQL.insertRequest, AnySQL.updateRequest, AnySQL.deleteRequest,
          AnySQL.selectRequest, Insert.executeRequest,
          bindJson, savepointJson, h1, h2, hb, htb, hret, List.find?]

/-- Claim C3 amended witness. -/
theorem C3_amended_witness :
    jpath (AnySQL.executeRequest
      { errm := none, affected := 0, success := true, source := "select 1",
        session := { sessionID := "s2" }, savepoint := some false,
        bindvalues := none }) ["Sql", "savepoint"]
      = some (Json.bool false) ∧
    jpath (Insert.executeRequest
      { errm := none, success := true, affected := 0, cursor := none,
        table := { source := "emp", session := { sessionID := "s2" },
                   bindvalues := none, coldefs := [] },
        source := "emp", session := { sessionID := "s2" },
        savepoint := some false, returning := none }
      { columns := [], values := [] })
      ["Table", "insert()", "savepoint"] = some (Json.bool false) := by
  have h := C3_amended
    { errm := none, affected := 0, success := true, source := "select 1",
      session := { sessionID := "s2" }, savepoint := some false,
      bindvalues := none }
    { errm := none, success := true, affected := 0, cursor := none,
      table := { source := "emp", session := { sessionID := "s2" },
                 bindvalues := none, coldefs := [] },
      source := "emp", session := { sessionID := "s2" },
      savepoint := some false, returning := none }
    { columns := [], values := [] }
    false none none rfl rfl
  exact ⟨h.1, h.2.2.2.2.2.2⟩

/-- Claim C4: for a record with n columns (and matching values), the
request built by Insert.execute carries inside "insert()" a values array
of exactly n column/value pairs, the i-th pair holding the record's i-th
column name and i-th value. -/
theorem C4_values_array (ins : Insert) (rec : Record)
    (h : rec.values.length = rec.columns.length) :
    ∃ vs : List Json,
      jpath (Insert.executeRequest ins rec) ["Table", "insert()", "values"]
        = some (Json.arr vs) ∧
      vs.length = rec.columns.length ∧
      ∀ i, i < rec.columns.length →
        vs.getD i Json.null =
          Json.obj [("column", Json.str (rec.columns.getD i "")),
                    ("value", rec.values.getD i Json.null)] := by
  refine ⟨(List.range rec.columns.length).map (fun i =>
    Json.obj [("column", Json.str (rec.columns.getD i "")),
              ("value", rec.values.getD i Json.null)]), ?_, ?_, ?_⟩
  · cases hsp : ins.savepoint <;> cases htb : ins.table.bindvalues <;>
      cases hret : ins.returning <;>
      simp [jpath, jget, Json.getField, Insert.executeRequest,
            bindJson, savepointJson, hsp, htb, hret, List.find?]
  · simp
  · intro i hi
    have hlen : i < ((List.range rec.columns.length).map (fun i =>
        Json.obj [("column", Json.str (rec.columns.getD i "")),
                  ("value", rec.values.getD i Json.null)])).length := by
      simpa using hi
    rw [List.getD_eq_getElem _ _ hlen]
    simp

/-- Claim C4 witness. -/
theorem C4_values_array_witness :
    ∃ vs : List Json,
      jpath (Insert.executeRequest
        { errm := none, success := true, affected := 0, cursor := none,
          table := { source := "emp", session := { sessionID := "s1" },
                     bindvalues := none, coldefs := [] },
          source := "emp", session := { sessionID := "s1" },
          savepoint := none, returning := none }
        { columns := ["id", "name"], values := [Json.num 1, Json.str "x"] })
        ["Table", "insert()", "values"] = some (Json.arr vs) ∧
      vs.length = 2 ∧
      vs.getD 0 Json.null =
        Json.obj [("column", Json.str "id"), ("value", Json.num 1)] ∧
      vs.getD 1 Json.null =
        Json.obj [("column", Json.str "name"), ("value", Json.str "x")] := by
  obtain ⟨vs, hp, hl, he⟩ := C4_values_array
    { errm := none, success := true, affected := 0, cursor := none,
      table := { source := "emp", session := { sessionID := "s1" },
                 bindvalues := none, coldefs := [] },
      source := "emp", session := { sessionID := "s1" },
      savepoint := none, returning := none }
    { columns := ["id", "name"], values := [Json.num 1, Json.str "x"] }
    rfl
  refine ⟨vs, hp, by simpa using hl, ?_, ?_⟩
  · simpa using he 0 (by decide)
  · simpa using he 1 (by decide)

/-- Claim C5 counterexample: an empty source string is present (not null),
yet the AnySQL constructor throws SOURCE_IS_NULL on it, because the code
tests the source for JS falsiness, not only for null. -/
theorem C5_counterexample :
    AnySQL.construct (some { sessionID := "s1" }) (some "") none
      = Except.error (JsErr.SOURCE_IS_NULL "AnySQL") := by
  rfl

/-- Claim C5 (amended): constructing AnySQL with the source null, absent
or the empty string, or with the session null or absent, throws a
localized error before any call to the session's invoke (the constructor
performs no network interaction); with a session present and a non-empty
source, construction does not throw. -/
theorem C5_amended (sess : Session) (src : String) (bv : Option BindArg)
    (h : src ≠ "") :
    (∃ a, AnySQL.construct (some sess) (some src) bv = Except.ok a) ∧
    AnySQL.construct (some sess) none bv
      = Except.error (JsErr.SOURCE_IS_NULL "AnySQL") ∧
    AnySQL.construct (some sess) (some "") bv
      = Except.error (JsErr.SOURCE_IS_NULL "AnySQL") ∧
    AnySQL.construct none (some src) bv
      = Except.error (JsErr.SESSION_IS_NULL "AnySQL") ∧
    AnySQL.construct none none bv
      = Except.error (JsErr.SOURCE_IS_NULL "AnySQL") := by
  have hcond : ¬((some src : Option String) = none
      ∨ (some src : Option String) = some "") := by
    simp [h]
  refine ⟨?_, ?_, ?_, ?_, ?_⟩
  · simp only [AnySQL.construct]
    rw [if_neg hcond]
    exact ⟨_, rfl⟩
  · simp [AnySQL.construct]
  · simp [AnySQL.construct]
  · simp [AnySQL.construct, h]
  · simp [AnySQL.construct]

/-- Claim C5 amended witness. -/
theorem C5_amended_witness :
    ("select 1" : String) ≠ "" ∧
    ((∃ a, AnySQL.construct (some { sessionID := "s1" }) (some "select 1") none
        = Except.ok a) ∧
     AnySQL.construct (some { sessionID := "s1" }) none none
       = Except.error (JsErr.SOURCE_IS_NULL "AnySQL") ∧
     AnySQL.construct (some { sessionID := "s1" }) (some "") none
       = Except.error (JsErr.SOURCE_IS_NULL "AnySQL") ∧
     AnySQL.construct none (some "select 1") none
       = Except.error (JsErr.SESSION_IS_NULL "AnySQL") ∧
     AnySQL.construct none none none
       = Except.error (JsErr.SOURCE_IS_NULL "AnySQL")) :=
  ⟨by decide, C5_amended { sessionID := "s1" } "select 1" none (by decide)⟩

/-- Claim C6: for every operation kind of AnySQL
(execute/insert/update/delete/select) and for Insert.execute, when the
response has success=false and message="X", afterwards failed() returns
true and getErrorMessage() returns "X"; the operations are total
functions on responses, so no exception is raised for a declined
operation. -/
theorem C6_declined_reported (a : AnySQL) (ins : Insert) (rec : Record)
    (r : Response) (x : String)
    (h1 : r.success = false) (h2 : r.message = some x) :
    (AnySQL.failed (AnySQL.execute a r).1 = true ∧
     AnySQL.getErrorMessage (AnySQL.execute a r).1 = some x) ∧
    (AnySQL.failed (AnySQL.insert a r).1 = true ∧
     AnySQL.getErrorMessage (AnySQL.insert a r).1 = some x) ∧
    (AnySQL.failed (AnySQL.update a r).1 = true ∧
     AnySQL.getErrorMessage (AnySQL.update a r).1 = some x) ∧
    (AnySQL.failed (AnySQL.delete a r).1 = true ∧
     AnySQL.getErrorMessage (AnySQL.delete a r).1 = some x) ∧
    (AnySQL.failed (AnySQL.select a r).1 = true ∧
     AnySQL.getErrorMessage (AnySQL.select a r).1 = some x) ∧
    (Insert.failed (Insert.execute ins rec r).1 = true ∧
     Insert.getErrorMessage (Insert.execute ins rec r).1 = some x) := by
  cases hret : ins.returning <;>
    simp [AnySQL.execute, AnySQL.insert, AnySQL.update, AnySQL.delete,
          AnySQL.select, Insert.execute, AnySQL.failed,
          AnySQL.getErrorMessage, Insert.failed, Insert.getErrorMessage,
          h1, h2, hret]

/-- Claim C6 witness. -/
theorem C6_declined_reported_witness :
    (AnySQL.failed (AnySQL.execute
      { errm := none, affected := 0, success := true, source := "select 1",
        session := { sessionID := "s1" }, savepoint := none,
        bindvalues := none }
      { success := false, message := some "X", affected := 0,
        columns := [], rows := [], more := false }).1 = true ∧
     AnySQL.getErrorMessage (AnySQL.execute
      { errm := none, affected := 0, success := true, source := "select 1",
        session := { sessionID := "s1" }, savepoint := none,
        bindvalues := none }
      { success := false, message := some "X", affected := 0,
        columns := [], rows := [], more := false }).1 = some "X") ∧
    Insert.failed (Insert.execute
      { errm := none, success := true, affected := 0, cursor := none,
        table := { source := "emp", session := { sessionID := "s1" },
                   bindvalues := none, coldefs := [] },
        source := "emp", session := { sessionID := "s1" },
        savepoint := none, returning := none }
      { columns := [], values := [] }
      { success := false, message := some "X", affected := 0,
        columns := [], rows := [], more := false }).1 = true := by
  have h := C6_declined_reported
    { errm := none, affected := 0, success := true, source := "select 1",
      session := { sessionID := "s1" }, savepoint := none,
      bindvalues := none }
    { errm := none, success := true, affected := 0, cursor := none,
      table := { source := "emp", session := { sessionID := "s1" },
                 bindvalues := none, coldefs := [] },
      source := "emp", session := { sessionID := "s1" },
      savepoint := none, returning := none }
    { columns := [], values := [] }
    { success := false, message := some "X", affected := 0,
      columns := [], rows := [], more := false }
    "X" rfl rfl
  exact ⟨h.1, h.2.2.2.2.2.1⟩

/-- Claim C7: when AnySQL.select receives a successful response whose
column descriptor list is the single descriptor named "A", the returned
Cursor's column map has exactly the one key "a" (the lower-cased name),
bound to the ColumnDefinition copied from the descriptor, and the name
list handed to the Cursor is exactly ["A"]. -/
theorem C7_single_column (a : AnySQL) (r : Response) (t st : String)
    (p : Nat) (h1 : r.success = true)
    (h2 : r.columns = [{ name := "A", type := t, sqltype := st,
                         precision := p }]) :
    ∃ c : Cursor, (AnySQL.select a r).2 = some c ∧
      c.coldefs = [("a", { name := "A", type := t, sqltype := st,
                           precision := p })] ∧
      c.data.columns = ["A"] := by
  obtain ⟨rs, rm, ra, rc, rr, rmore⟩ := r
  dsimp only at h1 h2
  subst h1
  subst h2
  have hA : jsToLower "A" = "a" := by decide
  refine ⟨_, rfl, ?_, rfl⟩
  simp [List.foldl, mapSet, hA]

/-- Claim C7 witness. -/
theorem C7_single_column_witness :
    ∃ c : Cursor, (AnySQL.select
      { errm := none, affected := 0, success := true, source := "select 1",
        session := { sessionID := "s1" }, savepoint := none,
        bindvalues := none }
      { success := true, message := none, affected := 0,
        columns := [{ name := "A", type := "string", sqltype := "varchar",
                      precision := 10 }],
        rows := [], more := false }).2 = some c ∧
      c.coldefs = [("a", { name := "A", type := "string",
                           sqltype := "varchar", precision := 10 })] ∧
      c.data.columns = ["A"] :=
  C7_single_column
    { errm := none, affected := 0, success := true, source := "select 1",
      session := { sessionID := "s1" }, savepoint := none,
      bindvalues := none }
    { success := true, message := none, affected := 0,
      columns := [{ name := "A", type := "string", sqltype := "varchar",
                    precision := 10 }],
      rows := [], more := false }
    "string" "varchar" 10 rfl rfl

/-- Claim C8: when return columns C were set before Insert.execute and
the response is successful, the constructed Cursor's data carries
exactly the columns C and the response's rows (built from the table's
column definitions), and getReturnValues() returns that Cursor; when no
return columns were set, getReturnValues() returns null afterwards. -/
theorem C8_returning_cursor (ins insNone : Insert) (rec recB : Record)
    (r rB : Response) (C : List String)
    (h1 : r.success = true) (h2 : ins.returning = some C)
    (h3 : rB.success = true) (h4 : insNone.returning = none) :
    Insert.getReturnValues (Insert.execute ins rec r).1 =
      some { session := ins.session, coldefs := ins.table.coldefs,
             data := { more := false, rows := r.rows, columns := C } } ∧
    Insert.getReturnValues (Insert.execute insNone recB rB).1 = none := by
  constructor
  · simp [Insert.execute, Insert.getReturnValues, h1, h2]
  · simp [Insert.execute, Insert.getReturnValues, h3, h4]

/-- Claim C8 witness. -/
theorem C8_returning_cursor_witness :
    Insert.getReturnValues (Insert.execute
      { errm := none, success := true, affected := 0, cursor := none,
        table := { source := "emp", session := { sessionID := "s1" },
                   bindvalues := none, coldefs := [] },
        source := "emp", session := { sessionID := "s1" },
        savepoint := none, returning := some ["id"] }
      { columns := ["name"], values := [Json.str "x"] }
      { success := true, message := none, affected := 1,
        columns := [], rows := [[Json.num 7]], more := false }).1 =
      some { session := { sessionID := "s1" }, coldefs := [],
             data := { more := false, rows := [[Json.num 7]],
                       columns := ["id"] } } ∧
    Insert.getReturnValues (Insert.execute
      { errm := none, success := true, affected := 0, cursor := none,
        table := { source := "emp", session := { sessionID := "s1" },
                   bindvalues := none, coldefs := [] },
        source := "emp", session := { sessionID := "s1" },
        savepoint := none, returning := none }
      { columns := ["name"], values := [Json.str "x"] }
      { success := true, message := none, affected := 1,
        columns := [], rows := [], more := false }).1 = none :=
  C8_returning_cursor
    { errm := none, success := true, affected := 0, cursor := none,
      table := { source := "emp", session := { sessionID := "s1" },
                 bindvalues := none, coldefs := [] },
      source := "emp", session := { sessionID := "s1" },
      savepoint := none, returning := some ["id"] }
    { errm := none, success := true, affected := 0, cursor := none,
      table := { source := "emp", session := { sessionID := "s1" },
                 bindvalues := none, coldefs := [] },
      source := "emp", session := { sessionID := "s1" },
      savepoint := none, returning := none }
    { columns := ["name"], values := [Json.str "x"] }
    { columns := ["name"], values := [Json.str "x"] }
    { success := true, message := none, affected := 1,
      columns := [], rows := [[Json.num 7]], more := false }
    { success := true, message := none, affected := 1,
      columns := [], rows := [], more := false }
    ["id"] rfl rfl rfl rfl

/-- Claim C9: AnySQL.select returns null exactly when the response's
success flag is false and a Cursor exactly when it is true, while each
of the four mutating operations returns the success flag itself. -/
theorem C9_select_return (a : AnySQL) (r : Response) :
    ((AnySQL.select a r).2 = none ↔ r.success = false) ∧
    ((∃ c, (AnySQL.select a r).2 = some c) ↔ r.success = true) ∧
    (AnySQL.execute a r).2 = r.success ∧
    (AnySQL.insert a r).2 = r.success ∧
    (AnySQL.update a r).2 = r.success ∧
    (AnySQL.delete a r).2 = r.success := by
  cases hr : r.success <;>
    simp [AnySQL.select, AnySQL.execute, AnySQL.insert, AnySQL.update,
          AnySQL.delete, hr]

/-- Claim C10: Insert.execute resets the affected count to 0 and the
cursor to null before issuing the request, so whenever it returns false,
affected() returns 0 and getReturnValues() returns null afterwards,
whatever state an earlier call left behind. -/
theorem C10_reset_on_failure (ins : Insert) (rec : Record) (r : Response)
    (h : (Insert.execute ins rec r).2 = false) :
    Insert.affectedCount (Insert.execute ins rec r).1 = 0 ∧
    Insert.getReturnValues (Insert.execute ins rec r).1 = none := by
  cases hr : r.success
  · cases hret : ins.returning <;>
      simp [Insert.execute, Insert.affectedCount, Insert.getReturnValues,
            hr, hret]
  · exfalso
    cases hret : ins.returning <;>
      simp [Insert.execute, hr, hret] at h

/-- Claim C10 witness: a previously successful instance (affected 3, a
cursor present) issues a failing call and afterwards reports 0 affected
rows and a null cursor. -/
theorem C10_reset_on_failure_witness :
    Insert.affectedCount (Insert.execute
      { errm := none, success := true, affected := 3,
        cursor := some { session := { sessionID := "s1" }, coldefs := [],
                         data := { more := false, rows := [],
                                   columns := ["id"] } },
        table := { source := "emp", session := { sessionID := "s1" },
                   bindvalues := none, coldefs := [] },
        source := "emp", session := { sessionID := "s1" },
        savepoint := none, returning := some ["id"] }
      { columns := ["id"], values := [Json.num 1] }
      { success := false, message := some "boom", affected := 0,
        columns := [], rows := [], more := false }).1 = 0 ∧
    Insert.getReturnValues (Insert.execute
      { errm := none, success := true, affected := 3,
        cursor := some { session := { sessionID := "s1" }, coldefs := [],
                         data := { more := false, rows := [],
                                   columns := ["id"] } },
        table := { source := "emp", session := { sessionID := "s1" },
                   bindvalues := none, coldefs := [] },
        source := "emp", session := { sessionID := "s1" },
        savepoint := none, returning := some ["id"] }
      { columns := ["id"], values := [Json.num 1] }
      { success := false, message := some "boom", affected := 0,
        columns := [], rows := [], more := false }).1 = none :=
  C10_reset_on_failure
    { errm := none, success := true, affected := 3,
      cursor := some { session := { sessionID := "s1" }, coldefs := [],
                       data := { more := false, rows := [],
                                 columns := ["id"] } },
      table := { source := "emp", session := { sessionID := "s1" },
                 bindvalues := none, coldefs := [] },
      source := "emp", session := { sessionID := "s1" },
      savepoint := none, returning := some ["id"] }
    { columns := ["id"], values := [Json.num 1] }
    { success := false, message := some "boom", affected := 0,
      columns := [], rows := [], more := false }
    rfl

end FF
